import Mathlib

/-!
Shallow embedding of `samspencer5991/buttons` (src/src/buttons.c, src/include/buttons.h).

Machine integers are modelled as `Nat` with explicit reduction modulo `2 ^ 32` (`uint32_t`)
where wraparound matters; the `millis()` clock, the GPIO pin read and the handler bodies are
external capabilities and enter as explicit parameters.  The global mutable state of buttons.c
(`numButtons`, `timerTriggered`, the `buttons[]` array) is a `ButtonsState` record threaded
explicitly; the C array is modelled as a total map `Nat → Button` (the getters and
`buttons_create` index it without any bounds check, exactly as the C does).

Handler function pointers carry no behaviour visible to this module, so a handler field is
modelled by its presence: `Option Unit` (`none` = `NULL`).  Calling a `NULL` function pointer
is undefined behaviour in C, so `buttons_triggerPoll` — which calls `buttons[i].handler`
without a null check — is embedded as an `Option`-returning function: `none` models the fault,
and on success it returns the updated array together with the trace of handler invocations
`(index, state argument)` in call order.
-/

/-- Configuration constants from buttons.h / buttons.c (default values). -/
def DEBOUNCE_TIME : Nat := 20

def DOUBLE_PRESS_TIME : Nat := 300

def BUTTON_ACCELERATION_THRESHOLD : Nat := 18

def MULTIPLE_BUTTON_TIME : Nat := 100

def NUM_ALL_SWITCHES : Nat := 2

/-- Modulus of `uint32_t`. -/
def U32 : Nat := 2 ^ 32

/-- The C expression `a - b` at type `uint32_t` (wrapping subtraction). -/
def sub32 (a b : Nat) : Nat := (a % U32 + U32 - b % U32) % U32

/-- ButtonErrorState from buttons.h. -/
inductive ButtonErrorState where
  | ButtonMemError
  | ButtonParamError
  | ButtonHalError
  | ButtonOk
  deriving DecidableEq, Repr

/-- ButtonLogic from buttons.h. -/
inductive ButtonLogic where
  | ActiveLow
  | ActiveHigh
  deriving DecidableEq, Repr

/-- ButtonState from buttons.h. -/
inductive ButtonState where
  | Pressed
  | DoublePressed
  | Released
  | DoublePressReleased
  | Held
  | HeldReleased
  | Cleared
  | HeldRepeat
  deriving DecidableEq, Repr

/-- ButtonEmulateAction from buttons.h. -/
inductive ButtonEmulateAction where
  | ButtonEmulatePress
  | ButtonEmulateRelease
  | ButtonEmulateNone
  deriving DecidableEq, Repr

/-- ButtonMode from buttons.h (the source spells the second constructor lower-case). -/
inductive ButtonMode where
  | Momentary
  | latching
  deriving DecidableEq, Repr

/-- The Button struct from buttons.h (the platform-conditional `port` field is omitted:
it is only read by the external pin-read capability, which enters as a parameter). -/
structure Button where
  mode : ButtonMode
  state : ButtonState
  lastState : ButtonState
  lastTime : Nat
  accelerationCounter : Nat
  accelerationThreshold : Nat
  accelerationTrigger : Bool
  pin : Nat
  pressEvent : Bool
  logicMode : ButtonLogic
  handler : Option Unit
  deriving DecidableEq, Repr

/-- The module-level mutable state of buttons.c: `numButtons`, the `timerTriggered`
bitmask and the `buttons[]` array (as a total map, since the C code indexes it with
no bounds check in several places). -/
structure ButtonsState where
  numButtons : Nat
  timerTriggered : Nat
  buttons : Nat → Button

/-- Pointwise array store `buttons[i] = b`. -/
def updateButtons (bs : Nat → Button) (i : Nat) (b : Button) : Nat → Button :=
  fun j => if j = i then b else bs j

/-- buttons_create (buttons.c lines 82-114): rejects a NULL handler, otherwise
increments `numButtons` (a `uint16_t`) and initializes `buttons[index]`.
The `accelerationTrigger` field is not written by the C code, so it is kept. -/
def buttons_create (st : ButtonsState) (GPIO_Pin : Nat) (mode : ButtonMode)
    (logicMode : ButtonLogic) (index : Nat) (funcp : Option Unit) :
    ButtonErrorState × ButtonsState :=
  match funcp with
  | none => (ButtonErrorState.ButtonParamError, st)
  | some _ =>
    let b := st.buttons index
    let b := { b with
      pin := GPIO_Pin % 2 ^ 16
      logicMode := logicMode
      state := ButtonState.Cleared
      lastState := ButtonState.Released
      mode := mode
      lastTime := 0
      pressEvent := false
      handler := some ()
      accelerationThreshold := BUTTON_ACCELERATION_THRESHOLD
      accelerationCounter := 0 }
    (ButtonErrorState.ButtonOk,
      { st with
        numButtons := (st.numButtons + 1) % 2 ^ 16
        buttons := updateButtons st.buttons index b })

/-- buttons_setState (buttons.c lines 122-130). -/
def buttons_setState (st : ButtonsState) (index : Nat) (state : ButtonState) :
    ButtonErrorState × ButtonsState :=
  if st.numButtons ≤ index then
    (ButtonErrorState.ButtonParamError, st)
  else
    let b := { st.buttons index with state := state }
    (ButtonErrorState.ButtonOk, { st with buttons := updateButtons st.buttons index b })

/-- buttons_setLastState (buttons.c lines 138-146). -/
def buttons_setLastState (st : ButtonsState) (index : Nat) (state : ButtonState) :
    ButtonErrorState × ButtonsState :=
  if st.numButtons ≤ index then
    (ButtonErrorState.ButtonParamError, st)
  else
    let b := { st.buttons index with lastState := state }
    (ButtonErrorState.ButtonOk, { st with buttons := updateButtons st.buttons index b })

/-- buttons_getState (buttons.c lines 155-158): direct array access, no parameter check. -/
def buttons_getState (st : ButtonsState) (index : Nat) : ButtonState :=
  (st.buttons index).state

/-- buttons_getPin (buttons.c lines 165-168): direct array access, no parameter check. -/
def buttons_getPin (st : ButtonsState) (index : Nat) : Nat :=
  (st.buttons index).pin

/-- The local `interruptState` computed at the top of buttons_extiGpioCallback
(buttons.c lines 230-273): `true` models `1` (a release edge), `false` models `0`
(a press edge).  For `ButtonEmulateNone` the raw pin read is external; `pinActive`
is the outcome of the framework-conditional pin-level test, which the code then
translates through `logicMode`. -/
def computeInterruptState (b : Button) (pinActive : Bool)
    (emulateAction : ButtonEmulateAction) : Bool :=
  match emulateAction with
  | ButtonEmulateAction.ButtonEmulateNone =>
    if pinActive then
      match b.logicMode with
      | ButtonLogic.ActiveLow => true
      | ButtonLogic.ActiveHigh => false
    else
      match b.logicMode with
      | ButtonLogic.ActiveLow => false
      | ButtonLogic.ActiveHigh => true
  | ButtonEmulateAction.ButtonEmulatePress => false
  | ButtonEmulateAction.ButtonEmulateRelease => true

/-- The press branch of buttons_extiGpioCallback (buttons.c lines 281-315): the
double-press check against the previous press time, then the state update.
`lastTime` is written afterwards by the caller. -/
def pressUpdate (b : Button) (tickTime : Nat) : Button :=
  if sub32 tickTime b.lastTime < DOUBLE_PRESS_TIME ∧ 0 < b.lastTime then
    { b with state := ButtonState.DoublePressed, lastState := ButtonState.DoublePressed }
  else
    { b with state := ButtonState.Pressed, lastState := ButtonState.Pressed }

/-- The release branch of buttons_extiGpioCallback (buttons.c lines 318-355):
dispatch on `lastState`; returns the updated button and the new value of the
global `timerTriggered`. -/
def releaseUpdate (b : Button) (timerTriggered : Nat) : Button × Nat :=
  match b.lastState with
  | ButtonState.Pressed =>
    ({ b with state := ButtonState.Released, lastState := ButtonState.Released }, 0)
  | ButtonState.Held =>
    ({ b with
        state := ButtonState.HeldReleased
        lastState := ButtonState.HeldReleased
        accelerationThreshold := BUTTON_ACCELERATION_THRESHOLD
        accelerationCounter := 0 }, timerTriggered)
  | ButtonState.DoublePressed =>
    ({ b with
        state := ButtonState.DoublePressReleased
        lastState := ButtonState.DoublePressReleased }, 0)
  | _ => (b, timerTriggered)

/-- buttons_extiGpioCallback (buttons.c lines 226-358).  `now` is the value returned
by the external `millis()` clock; `pinActive` feeds the hardware read of the
`ButtonEmulateNone` path.  The hold-timer arming block inside the press branch is
commented out in the source, so the press branch only classifies.  The edge is
accepted only when `tickTime - lastTime > DEBOUNCE_TIME` (uint32 subtraction);
every accepted edge ends by storing `lastTime = tickTime`. -/
def buttons_extiGpioCallback (st : ButtonsState) (index : Nat)
    (emulateAction : ButtonEmulateAction) (pinActive : Bool) (now : Nat) : ButtonsState :=
  let b := st.buttons index
  let interruptState := computeInterruptState b pinActive emulateAction
  if DEBOUNCE_TIME < sub32 now b.lastTime then
    if interruptState = false then
      let b1 := { pressUpdate b now with lastTime := now % U32 }
      { st with buttons := updateButtons st.buttons index b1 }
    else
      let r := releaseUpdate b st.timerTriggered
      let b1 := { r.1 with lastTime := now % U32 }
      { st with
        timerTriggered := r.2
        buttons := updateButtons st.buttons index b1 }
  else st

/-- The module state after an accepted press edge on buttons[index] at tick `now`
(the then-branch of the accepted case of buttons_extiGpioCallback). -/
def pressResult (st : ButtonsState) (index : Nat) (now : Nat) : ButtonsState :=
  let b1 := { pressUpdate (st.buttons index) now with lastTime := now % U32 }
  { st with buttons := updateButtons st.buttons index b1 }

/-- The module state after an accepted release edge on buttons[index] at tick `now`
(the else-branch of the accepted case of buttons_extiGpioCallback). -/
def releaseResult (st : ButtonsState) (index : Nat) (now : Nat) : ButtonsState :=
  let r := releaseUpdate (st.buttons index) st.timerTriggered
  let b1 := { r.1 with lastTime := now % U32 }
  { st with timerTriggered := r.2, buttons := updateButtons st.buttons index b1 }

/-- Modelled from the spec: the body of `buttons_holdTimerElapsed` is commented out in
buttons.c (lines 197-214); only its declaration in buttons.h line 201 is live code.
Following spec section 4.2 `on_elapsed`: the physical timer is stopped (an external
capability, not part of this state), then every entity whose
`last_confirmed_state ∈ {Pressed, DoublePressed}` and whose `timer_triggered` claim
bit is set is promoted to `Held` (both `state` and `last_confirmed_state`), and
`timer_triggered` is cleared. -/
def buttons_holdTimerElapsed (st : ButtonsState) : ButtonsState :=
  { st with
    timerTriggered := 0
    buttons := fun i =>
      let b := st.buttons i
      if i < st.numButtons ∧
          (b.lastState = ButtonState.Pressed ∨ b.lastState = ButtonState.DoublePressed) ∧
          st.timerTriggered.testBit i then
        { b with state := ButtonState.Held, lastState := ButtonState.Held }
      else b }

/-- The body of the poll loop of buttons_triggerPoll for one button
(buttons.c lines 182-192): drain a non-Cleared state (capture it, reset the field to
`Cleared`, then call the handler with the captured value), then service the
acceleration trigger (call the handler with `HeldRepeat` and clear the trigger).
A call through a NULL handler is the fault `none`; on success the returned list is
the sequence of states the handler was invoked with. -/
def pollOne (b : Button) : Option (Button × List ButtonState) :=
  match (if b.state ≠ ButtonState.Cleared then
      match b.handler with
      | none => none
      | some _ => some ({ b with state := ButtonState.Cleared }, [b.state])
    else some (b, [])) with
  | none => none
  | some (b1, t1) =>
    match (if b1.accelerationTrigger then
        match b1.handler with
        | none => none
        | some _ => some ({ b1 with accelerationTrigger := false }, [ButtonState.HeldRepeat])
      else some (b1, [])) with
    | none => none
    | some (b2, t2) => some (b2, t1 ++ t2)

/-- The loop of buttons_triggerPoll over indices `0, 1, ..., n-1` in order
(buttons.c lines 180-193).  `triggerPollAux n bs` processes exactly the indices
below `n`; the trace tags each handler invocation with the button index. -/
def triggerPollAux : Nat → (Nat → Button) → Option ((Nat → Button) × List (Nat × ButtonState))
  | 0, bs => some (bs, [])
  | n + 1, bs =>
    match triggerPollAux n bs with
    | none => none
    | some (bs1, tr) =>
      match pollOne (bs1 n) with
      | none => none
      | some (b, t) =>
        some (updateButtons bs1 n b, tr ++ t.map (fun s => (n, s)))

/-- buttons_triggerPoll (buttons.c lines 176-195): iterate the poll body over every
button index below `numButtons`, in index order. -/
def buttons_triggerPoll (st : ButtonsState) :
    Option (ButtonsState × List (Nat × ButtonState)) :=
  match triggerPollAux st.numButtons st.buttons with
  | none => none
  | some (bs, tr) => some ({ st with buttons := bs }, tr)

/-- The button produced by a successful pass of the poll body: the state field is left
`Cleared` and the acceleration trigger is left clear; no other field is touched. -/
def drained (b : Button) : Button :=
  { b with state := ButtonState.Cleared, accelerationTrigger := false }

/-- The sequence of states a successful pass of the poll body hands to the handler:
the captured non-Cleared state (if any) followed by `HeldRepeat` when the acceleration
trigger was set. -/
def pollTrace (b : Button) : List ButtonState :=
  (if b.state ≠ ButtonState.Cleared then [b.state] else []) ++
  (if b.accelerationTrigger then [ButtonState.HeldRepeat] else [])

/-- A button as `buttons_create` initializes it (handler present). -/
def bInit : Button :=
  { mode := ButtonMode.Momentary, state := ButtonState.Cleared,
    lastState := ButtonState.Released, lastTime := 0, accelerationCounter := 0,
    accelerationThreshold := BUTTON_ACCELERATION_THRESHOLD, accelerationTrigger := false,
    pin := 1, pressEvent := false, logicMode := ButtonLogic.ActiveLow, handler := some () }

/-- One created button whose previous accepted event happened at tick 50. -/
def gapState : ButtonsState :=
  { numButtons := 1, timerTriggered := 0,
    buttons := fun _ => { bInit with lastTime := 50 } }

/-- One created button currently held (lastState = Held), last event at tick 1000. -/
def heldState : ButtonsState :=
  { numButtons := 1, timerTriggered := 0,
    buttons := fun _ => { bInit with lastState := ButtonState.Held, lastTime := 1000 } }

/-- One created button currently pressed (lastState = Pressed), last event at tick 100,
with a nonzero timerTriggered bitmask. -/
def pressedState : ButtonsState :=
  { numButtons := 1, timerTriggered := 5,
    buttons := fun _ =>
      { bInit with state := ButtonState.Pressed, lastState := ButtonState.Pressed,
                   lastTime := 100 } }

/-- One button with a NULL handler and a pending (non-Cleared) state. -/
def nullHandlerState : ButtonsState :=
  { numButtons := 1, timerTriggered := 0,
    buttons := fun _ => { bInit with state := ButtonState.Pressed, handler := none } }

/-- Two created buttons with work pending for the poller: button 0 owes a press event,
button 1 owes a hold-repeat. -/
def pollDemo : ButtonsState :=
  { numButtons := 2, timerTriggered := 0,
    buttons := fun i =>
      if i = 0 then { bInit with state := ButtonState.Pressed }
      else { bInit with accelerationTrigger := true } }

/-- The array after polling `pollDemo`. -/
def pollDemoAfter : ButtonsState :=
  ((buttons_triggerPoll pollDemo).getD (pollDemo, [])).1

/-- The handler-invocation trace of polling `pollDemo`. -/
def pollDemoTrace : List (Nat × ButtonState) :=
  ((buttons_triggerPoll pollDemo).getD (pollDemo, [])).2

/-- Two freshly created buttons. -/
def initTwo : ButtonsState :=
  { numButtons := 2, timerTriggered := 0, buttons := fun _ => bInit }

/-- Both buttons pressed through the real edge callback, 50 ms apart
(within MULTIPLE_BUTTON_TIME), so their press timestamps differ. -/
def pressedTwo : ButtonsState :=
  buttons_extiGpioCallback
    (buttons_extiGpioCallback initTwo 0 ButtonEmulateAction.ButtonEmulatePress false 1000)
    1 ButtonEmulateAction.ButtonEmulatePress false 1050

/-- Both pressed buttons hold a claim bit on the shared hold timer (the arming step of
spec section 4.1; the arming code in the C press branch is commented out, so the bits
are set directly here). -/
def armedTwo : ButtonsState :=
  { pressedTwo with timerTriggered := 3 }

theorem updateButtons_same (bs : Nat → Button) (i : Nat) (b : Button) :
    updateButtons bs i b i = b := by
  simp [updateButtons]

theorem updateButtons_other (bs : Nat → Button) (i j : Nat) (b : Button) (h : j ≠ i) :
    updateButtons bs i b j = bs j := by
  simp [updateButtons, h]

/-- C1: a call to buttons_extiGpioCallback whose elapsed time since the entity's last
accepted event is at most DEBOUNCE_TIME is a no-op: the whole module state — every field
of buttons[index], every other button, and the global timerTriggered — is unchanged. -/
theorem C1_debounce_noop (st : ButtonsState) (index : Nat)
    (emulateAction : ButtonEmulateAction) (pinActive : Bool) (now : Nat)
    (h : sub32 now (st.buttons index).lastTime ≤ DEBOUNCE_TIME) :
    buttons_extiGpioCallback st index emulateAction pinActive now = st := by
  unfold buttons_extiGpioCallback
  simp only
  rw [if_neg (by omega)]

theorem C1_debounce_noop_witness :
    sub32 60 ((gapState.buttons 0).lastTime) ≤ DEBOUNCE_TIME ∧
    buttons_extiGpioCallback gapState 0 ButtonEmulateAction.ButtonEmulatePress false 60
      = gapState :=
  ⟨by decide,
   C1_debounce_noop gapState 0 ButtonEmulateAction.ButtonEmulatePress false 60 (by decide)⟩

theorem callback_accept_press (st : ButtonsState) (index : Nat)
    (emulateAction : ButtonEmulateAction) (pinActive : Bool) (now : Nat)
    (hacc : DEBOUNCE_TIME < sub32 now (st.buttons index).lastTime)
    (hpress : computeInterruptState (st.buttons index) pinActive emulateAction = false) :
    buttons_extiGpioCallback st index emulateAction pinActive now
      = pressResult st index now := by
  unfold buttons_extiGpioCallback
  simp only
  rw [if_pos hacc, hpress, if_pos rfl]
  rfl

theorem callback_accept_release (st : ButtonsState) (index : Nat)
    (emulateAction : ButtonEmulateAction) (pinActive : Bool) (now : Nat)
    (hacc : DEBOUNCE_TIME < sub32 now (st.buttons index).lastTime)
    (hrel : computeInterruptState (st.buttons index) pinActive emulateAction = true) :
    buttons_extiGpioCallback st index emulateAction pinActive now
      = releaseResult st index now := by
  unfold buttons_extiGpioCallback
  simp only
  rw [if_pos hacc, hrel]
  simp
  rfl

/-- C2: on every accepted press edge, both state and lastState become DoublePressed
exactly when now - lastTime < DOUBLE_PRESS_TIME and lastTime > 0, and otherwise both
become Pressed; in particular a press with gap 299 since the previous accepted event
(at tick 50, so at tick 349) classifies as DoublePressed and one with gap 301 (tick 351)
classifies as Pressed. -/
theorem C2_double_press_boundary :
    (∀ (st : ButtonsState) (index : Nat) (emulateAction : ButtonEmulateAction)
        (pinActive : Bool) (now : Nat),
      DEBOUNCE_TIME < sub32 now (st.buttons index).lastTime →
      computeInterruptState (st.buttons index) pinActive emulateAction = false →
      ((((buttons_extiGpioCallback st index emulateAction pinActive now).buttons index).state
            = ButtonState.DoublePressed ∧
        ((buttons_extiGpioCallback st index emulateAction pinActive now).buttons index).lastState
            = ButtonState.DoublePressed) ↔
        (sub32 now (st.buttons index).lastTime < DOUBLE_PRESS_TIME ∧
          0 < (st.buttons index).lastTime)) ∧
      (¬ (sub32 now (st.buttons index).lastTime < DOUBLE_PRESS_TIME ∧
            0 < (st.buttons index).lastTime) →
        ((buttons_extiGpioCallback st index emulateAction pinActive now).buttons index).state
            = ButtonState.Pressed ∧
        ((buttons_extiGpioCallback st index emulateAction pinActive now).buttons index).lastState
            = ButtonState.Pressed)) ∧
    ((buttons_extiGpioCallback gapState 0 ButtonEmulateAction.ButtonEmulatePress false 349).buttons
        0).state = ButtonState.DoublePressed ∧
    ((buttons_extiGpioCallback gapState 0 ButtonEmulateAction.ButtonEmulatePress false 351).buttons
        0).state = ButtonState.Pressed := by
  refine ⟨?_, by decide, by decide⟩
  intro st index emulateAction pinActive now hacc hpress
  rw [callback_accept_press st index emulateAction pinActive now hacc hpress]
  unfold pressResult
  simp only [updateButtons_same]
  by_cases hc : sub32 now (st.buttons index).lastTime < DOUBLE_PRESS_TIME ∧
      0 < (st.buttons index).lastTime
  · simp [pressUpdate, hc]
  · simp [pressUpdate, hc]

theorem C2_double_press_boundary_witness :
    DEBOUNCE_TIME < sub32 349 ((gapState.buttons 0).lastTime) ∧
    computeInterruptState (gapState.buttons 0) false ButtonEmulateAction.ButtonEmulatePress
      = false ∧
    ((buttons_extiGpioCallback gapState 0 ButtonEmulateAction.ButtonEmulatePress false 349).buttons
        0).state = ButtonState.DoublePressed :=
  ⟨by decide, by decide, C2_double_press_boundary.2.1⟩

/-- C3 counterexample: a press edge accepted while lastState = Held is not dropped —
it changes the entity's state (from Cleared to DoublePressed here) and its lastState,
refuting the claimed re-entrancy guard on the press branch. -/
theorem C3_counterexample :
    (heldState.buttons 0).lastState = ButtonState.Held ∧
    DEBOUNCE_TIME < sub32 1100 ((heldState.buttons 0).lastTime) ∧
    (heldState.buttons 0).state = ButtonState.Cleared ∧
    ((buttons_extiGpioCallback heldState 0 ButtonEmulateAction.ButtonEmulatePress false
        1100).buttons 0).state = ButtonState.DoublePressed ∧
    ((buttons_extiGpioCallback heldState 0 ButtonEmulateAction.ButtonEmulatePress false
        1100).buttons 0).lastState = ButtonState.DoublePressed := by
  refine ⟨rfl, by decide, rfl, by decide, by decide⟩

/-- C3 amended: the press branch of buttons_extiGpioCallback has no guard on lastState —
an accepted press edge is classified unconditionally, so even while lastState is
Pressed, DoublePressed, or Held the entity is re-classified: state becomes DoublePressed
or Pressed (by the timing rule), lastState is set to the same value, and lastTime is
updated. -/
theorem C3_press_unguarded (st : ButtonsState) (index : Nat)
    (emulateAction : ButtonEmulateAction) (pinActive : Bool) (now : Nat)
    (hacc : DEBOUNCE_TIME < sub32 now (st.buttons index).lastTime)
    (hpress : computeInterruptState (st.buttons index) pinActive emulateAction = false)
    (_hlast : (st.buttons index).lastState = ButtonState.Pressed ∨
             (st.buttons index).lastState = ButtonState.DoublePressed ∨
             (st.buttons index).lastState = ButtonState.Held) :
    (((buttons_extiGpioCallback st index emulateAction pinActive now).buttons index).state
        = ButtonState.DoublePressed ∨
     ((buttons_extiGpioCallback st index emulateAction pinActive now).buttons index).state
        = ButtonState.Pressed) ∧
    ((buttons_extiGpioCallback st index emulateAction pinActive now).buttons index).lastState
      = ((buttons_extiGpioCallback st index emulateAction pinActive now).buttons index).state ∧
    ((buttons_extiGpioCallback st index emulateAction pinActive now).buttons index).lastTime
      = now % U32 := by
  rw [callback_accept_press st index emulateAction pinActive now hacc hpress]
  unfold pressResult
  simp only [updateButtons_same]
  by_cases hc : sub32 now (st.buttons index).lastTime < DOUBLE_PRESS_TIME ∧
      0 < (st.buttons index).lastTime
  · simp [pressUpdate, hc]
  · simp [pressUpdate, hc]

theorem C3_press_unguarded_witness :
    DEBOUNCE_TIME < sub32 1100 ((heldState.buttons 0).lastTime) ∧
    computeInterruptState (heldState.buttons 0) false ButtonEmulateAction.ButtonEmulatePress
      = false ∧
    ((heldState.buttons 0).lastState = ButtonState.Pressed ∨
     (heldState.buttons 0).lastState = ButtonState.DoublePressed ∨
     (heldState.buttons 0).lastState = ButtonState.Held) ∧
    (((buttons_extiGpioCallback heldState 0 ButtonEmulateAction.ButtonEmulatePress false
        1100).buttons 0).state = ButtonState.DoublePressed ∨
     ((buttons_extiGpioCallback heldState 0 ButtonEmulateAction.ButtonEmulatePress false
        1100).buttons 0).state = ButtonState.Pressed) :=
  ⟨by decide, by decide, by decide,
   (C3_press_unguarded heldState 0 ButtonEmulateAction.ButtonEmulatePress false 1100
     (by decide) (by decide) (by decide)).1⟩

/-- C4: on every accepted release edge the classifier dispatches on lastState: from
Pressed it sets state and lastState to Released and clears the global timerTriggered;
from Held it sets state and lastState to HeldReleased and resets accelerationThreshold
to BUTTON_ACCELERATION_THRESHOLD and accelerationCounter to 0; from DoublePressed it
sets state and lastState to DoublePressReleased and clears timerTriggered. -/
theorem C4_release_dispatch (st : ButtonsState) (index : Nat)
    (emulateAction : ButtonEmulateAction) (pinActive : Bool) (now : Nat)
    (hacc : DEBOUNCE_TIME < sub32 now (st.buttons index).lastTime)
    (hrel : computeInterruptState (st.buttons index) pinActive emulateAction = true) :
    ((st.buttons index).lastState = ButtonState.Pressed →
      ((buttons_extiGpioCallback st index emulateAction pinActive now).buttons index).state
          = ButtonState.Released ∧
      ((buttons_extiGpioCallback st index emulateAction pinActive now).buttons index).lastState
          = ButtonState.Released ∧
      (buttons_extiGpioCallback st index emulateAction pinActive now).timerTriggered = 0) ∧
    ((st.buttons index).lastState = ButtonState.Held →
      ((buttons_extiGpioCallback st index emulateAction pinActive now).buttons index).state
          = ButtonState.HeldReleased ∧
      ((buttons_extiGpioCallback st index emulateAction pinActive now).buttons index).lastState
          = ButtonState.HeldReleased ∧
      ((buttons_extiGpioCallback st index emulateAction pinActive now).buttons
          index).accelerationThreshold = BUTTON_ACCELERATION_THRESHOLD ∧
      ((buttons_extiGpioCallback st index emulateAction pinActive now).buttons
          index).accelerationCounter = 0) ∧
    ((st.buttons index).lastState = ButtonState.DoublePressed →
      ((buttons_extiGpioCallback st index emulateAction pinActive now).buttons index).state
          = ButtonState.DoublePressReleased ∧
      ((buttons_extiGpioCallback st index emulateAction pinActive now).buttons index).lastState
          = ButtonState.DoublePressReleased ∧
      (buttons_extiGpioCallback st index emulateAction pinActive now).timerTriggered = 0) := by
  rw [callback_accept_release st index emulateAction pinActive now hacc hrel]
  unfold releaseResult
  refine ⟨fun hl => ?_, fun hl => ?_, fun hl => ?_⟩ <;>
    simp [releaseUpdate, hl, updateButtons_same]

theorem C4_release_dispatch_witness :
    DEBOUNCE_TIME < sub32 200 ((pressedState.buttons 0).lastTime) ∧
    computeInterruptState (pressedState.buttons 0) false
      ButtonEmulateAction.ButtonEmulateRelease = true ∧
    (pressedState.buttons 0).lastState = ButtonState.Pressed ∧
    ((buttons_extiGpioCallback pressedState 0 ButtonEmulateAction.ButtonEmulateRelease false
        200).buttons 0).state = ButtonState.Released ∧
    (buttons_extiGpioCallback pressedState 0 ButtonEmulateAction.ButtonEmulateRelease false
        200).timerTriggered = 0 :=
  ⟨by decide, by decide, by decide,
   ((C4_release_dispatch pressedState 0 ButtonEmulateAction.ButtonEmulateRelease false 200
      (by decide) (by decide)).1 (by decide)).1,
   ((C4_release_dispatch pressedState 0 ButtonEmulateAction.ButtonEmulateRelease false 200
      (by decide) (by decide)).1 (by decide)).2.2⟩

/-- C7: every accepted edge stores the current tick into the entity's lastTime — and a
release edge whose lastState matches no dispatch case (neither Pressed, Held, nor
DoublePressed) changes nothing else: the entire module state equals the original with
only buttons[index].lastTime replaced. -/
theorem C7_lastTime_updated (st : ButtonsState) (index : Nat)
    (emulateAction : ButtonEmulateAction) (pinActive : Bool) (now : Nat)
    (hacc : DEBOUNCE_TIME < sub32 now (st.buttons index).lastTime) :
    ((buttons_extiGpioCallback st index emulateAction pinActive now).buttons index).lastTime
      = now % U32 ∧
    (computeInterruptState (st.buttons index) pinActive emulateAction = true →
      (st.buttons index).lastState ≠ ButtonState.Pressed →
      (st.buttons index).lastState ≠ ButtonState.Held →
      (st.buttons index).lastState ≠ ButtonState.DoublePressed →
      buttons_extiGpioCallback st index emulateAction pinActive now
        = { st with buttons :=
              updateButtons st.buttons index { st.buttons index with lastTime := now % U32 } }) := by
  constructor
  · cases his : computeInterruptState (st.buttons index) pinActive emulateAction
    · rw [callback_accept_press st index emulateAction pinActive now hacc his]
      unfold pressResult
      simp only [updateButtons_same]
    · rw [callback_accept_release st index emulateAction pinActive now hacc his]
      unfold releaseResult
      simp only [updateButtons_same]
  · intro hrel h1 h2 h3
    rw [callback_accept_release st index emulateAction pinActive now hacc hrel]
    unfold releaseResult
    cases hl : (st.buttons index).lastState <;> simp_all [releaseUpdate]

theorem C7_lastTime_updated_witness :
    DEBOUNCE_TIME < sub32 400 ((gapState.buttons 0).lastTime) ∧
    computeInterruptState (gapState.buttons 0) false ButtonEmulateAction.ButtonEmulateRelease
      = true ∧
    (gapState.buttons 0).lastState = ButtonState.Released ∧
    ((buttons_extiGpioCallback gapState 0 ButtonEmulateAction.ButtonEmulateRelease false
        400).buttons 0).lastTime = 400 % U32 :=
  ⟨by decide, by decide, by decide,
   (C7_lastTime_updated gapState 0 ButtonEmulateAction.ButtonEmulateRelease false 400
     (by decide)).1⟩

/-- C5: buttons_holdTimerElapsed (modelled from the spec, its body being commented out
in buttons.c) promotes every entity whose lastState is Pressed or DoublePressed and whose
timerTriggered claim bit is set to Held — both state and lastState — and clears the
timerTriggered bitmask; consequently two entities pressed 50 ms apart (within
MULTIPLE_BUTTON_TIME) through the real edge callback, both holding a claim bit, reach
Held at the same timer-elapsed event even though their press timestamps differ. -/
theorem C5_hold_promotion :
    (∀ (st : ButtonsState) (i : Nat),
      i < st.numButtons →
      ((st.buttons i).lastState = ButtonState.Pressed ∨
        (st.buttons i).lastState = ButtonState.DoublePressed) →
      st.timerTriggered.testBit i = true →
      ((buttons_holdTimerElapsed st).buttons i).state = ButtonState.Held ∧
      ((buttons_holdTimerElapsed st).buttons i).lastState = ButtonState.Held ∧
      (buttons_holdTimerElapsed st).timerTriggered = 0) ∧
    (armedTwo.buttons 0).lastTime ≠ (armedTwo.buttons 1).lastTime ∧
    sub32 ((armedTwo.buttons 1).lastTime) ((armedTwo.buttons 0).lastTime)
      ≤ MULTIPLE_BUTTON_TIME ∧
    ((buttons_holdTimerElapsed armedTwo).buttons 0).state = ButtonState.Held ∧
    ((buttons_holdTimerElapsed armedTwo).buttons 0).lastState = ButtonState.Held ∧
    ((buttons_holdTimerElapsed armedTwo).buttons 1).state = ButtonState.Held ∧
    ((buttons_holdTimerElapsed armedTwo).buttons 1).lastState = ButtonState.Held := by
  refine ⟨?_, by decide, by decide, by decide, by decide, by decide, by decide⟩
  intro st i hi hl ht
  unfold buttons_holdTimerElapsed
  simp only
  rw [if_pos ⟨hi, hl, ht⟩]
  simp

theorem C5_hold_promotion_witness :
    0 < armedTwo.numButtons ∧
    ((armedTwo.buttons 0).lastState = ButtonState.Pressed ∨
      (armedTwo.buttons 0).lastState = ButtonState.DoublePressed) ∧
    armedTwo.timerTriggered.testBit 0 = true ∧
    ((buttons_holdTimerElapsed armedTwo).buttons 0).state = ButtonState.Held :=
  ⟨by decide, by decide, by decide,
   (C5_hold_promotion.1 armedTwo 0 (by decide) (by decide) (by decide)).1⟩

theorem pollOne_eq_some (b : Button) (p : Button × List ButtonState)
    (h : pollOne b = some p) : p = (drained b, pollTrace b) := by
  obtain ⟨mo, stt, ls, lt, ac, ath, tg, pn, pe, lm, hd⟩ := b
  cases hd <;> by_cases hs : stt = ButtonState.Cleared <;> cases tg <;>
    simp_all [pollOne, drained, pollTrace]

theorem pollOne_eq_none (b : Button) (hn : b.handler = none)
    (hp : b.state ≠ ButtonState.Cleared ∨ b.accelerationTrigger = true) :
    pollOne b = none := by
  obtain ⟨mo, stt, ls, lt, ac, ath, tg, pn, pe, lm, hd⟩ := b
  cases hd <;> by_cases hs : stt = ButtonState.Cleared <;> cases tg <;>
    simp_all [pollOne]

theorem triggerPollAux_spec (n : Nat) (bs bs1 : Nat → Button)
    (tr : List (Nat × ButtonState))
    (h : triggerPollAux n bs = some (bs1, tr)) :
    (∀ j, n ≤ j → bs1 j = bs j) ∧
    (∀ i, i < n → bs1 i = drained (bs i)) ∧
    tr = ((List.range n).map fun i => (pollTrace (bs i)).map fun s => (i, s)).flatten := by
  induction n generalizing bs1 tr with
  | zero =>
    simp only [triggerPollAux, Option.some.injEq, Prod.mk.injEq] at h
    obtain ⟨h1, h2⟩ := h
    subst h1; subst h2
    simp
  | succ n ih =>
    unfold triggerPollAux at h
    cases hrec : triggerPollAux n bs with
    | none => rw [hrec] at h; cases h
    | some p =>
      obtain ⟨bs2, tr2⟩ := p
      rw [hrec] at h
      dsimp only at h
      cases hp : pollOne (bs2 n) with
      | none => rw [hp] at h; cases h
      | some q =>
        rw [hp] at h
        simp only [Option.some.injEq, Prod.mk.injEq] at h
        obtain ⟨hbs, htr⟩ := h
        obtain ⟨ha, hb, hc⟩ := ih bs2 tr2 hrec
        have hbsn : bs2 n = bs n := ha n le_rfl
        have hq : q = (drained (bs n), pollTrace (bs n)) := by
          rw [← hbsn]; exact pollOne_eq_some _ _ hp
        subst hbs; subst htr; subst hq
        refine ⟨?_, ?_, ?_⟩
        · intro j hj
          rw [updateButtons_other _ _ _ _ (by omega)]
          exact ha j (by omega)
        · intro i hi
          rcases Nat.lt_succ_iff_lt_or_eq.mp hi with hlt | heq
          · rw [updateButtons_other _ _ _ _ (by omega)]
            exact hb i hlt
          · subst heq
            rw [updateButtons_same]
        · rw [List.range_succ]
          simp [hc, hbsn]

theorem mem_pollFlatten_lt (g : Nat → List ButtonState) (n : Nat) (p : Nat × ButtonState)
    (hp : p ∈ (((List.range n).map fun i => (g i).map fun s => (i, s))).flatten) :
    p.1 < n := by
  induction n with
  | zero => simp at hp
  | succ n ih =>
    rw [List.range_succ] at hp
    simp only [List.map_append, List.flatten_append] at hp
    rcases List.mem_append.mp hp with h | h
    · exact Nat.lt_succ_of_lt (ih h)
    · simp only [List.map_cons, List.map_nil, List.flatten_cons, List.flatten_nil,
        List.append_nil, List.mem_map] at h
      obtain ⟨s, _, rfl⟩ := h
      exact Nat.lt_succ_self n

theorem filter_pollFlatten (g : Nat → List ButtonState) (n i : Nat) (hi : i < n) :
    ((((List.range n).map fun j => (g j).map fun s => (j, s))).flatten).filter
        (fun p => p.1 == i)
      = (g i).map fun s => (i, s) := by
  induction n with
  | zero => omega
  | succ n ih =>
    rw [List.range_succ]
    simp only [List.map_append, List.flatten_append, List.filter_append, List.map_cons,
      List.map_nil, List.flatten_cons, List.flatten_nil, List.append_nil]
    rcases Nat.lt_succ_iff_lt_or_eq.mp hi with h | h
    · rw [ih h]
      have hb : ((g n).map fun s => (n, s)).filter (fun p => p.1 == i) = [] := by
        rw [List.filter_eq_nil_iff]
        intro a ha
        simp only [List.mem_map] at ha
        obtain ⟨s, _, rfl⟩ := ha
        simp only [beq_iff_eq]
        omega
      rw [hb, List.append_nil]
    · subst h
      have ha : ((((List.range i).map fun j => (g j).map fun s => (j, s))).flatten).filter
          (fun p => p.1 == i) = [] := by
        rw [List.filter_eq_nil_iff]
        intro a ha
        have := mem_pollFlatten_lt g i a ha
        simp only [beq_iff_eq]
        omega
      have hb : ((g i).map fun s => (i, s)).filter (fun p => p.1 == i)
          = (g i).map fun s => (i, s) := by
        rw [List.filter_eq_self]
        intro a ha
        simp only [List.mem_map] at ha
        obtain ⟨s, _, rfl⟩ := ha
        simp
      rw [ha, hb, List.nil_append]

theorem pairwise_block (l : List ButtonState) (n : Nat) :
    List.Pairwise (fun p q : Nat × ButtonState => p.1 ≤ q.1) (l.map fun s => (n, s)) := by
  induction l with
  | nil => simp
  | cons a l ih =>
    simp only [List.map_cons, List.pairwise_cons]
    refine ⟨fun b hb => ?_, ih⟩
    simp only [List.mem_map] at hb
    obtain ⟨s, _, rfl⟩ := hb
    exact le_rfl

theorem pairwise_pollFlatten (g : Nat → List ButtonState) (n : Nat) :
    List.Pairwise (fun p q : Nat × ButtonState => p.1 ≤ q.1)
      (((List.range n).map fun i => (g i).map fun s => (i, s))).flatten := by
  induction n with
  | zero => simp
  | succ n ih =>
    rw [List.range_succ]
    simp only [List.map_append, List.flatten_append, List.map_cons, List.map_nil,
      List.flatten_cons, List.flatten_nil, List.append_nil]
    rw [List.pairwise_append]
    refine ⟨ih, pairwise_block _ _, ?_⟩
    intro a ha b hb
    have h1 := mem_pollFlatten_lt g n a ha
    simp only [List.mem_map] at hb
    obtain ⟨s, _, rfl⟩ := hb
    omega

/-- C6: a successful buttons_triggerPoll drains every entity below numButtons in index
order: each entity's handler is invoked exactly on the captured pre-poll state when it
was non-Cleared (so at most once per accepted event, never twice), plus once with
HeldRepeat when its accelerationTrigger was set; afterwards the entity's state is
Cleared (the reset happens before the handler call: the post-state is `drained`,
independent of the handler) and its accelerationTrigger is clear, and the invocation
trace is sorted by button index. -/
theorem C6_poll_drains (st st1 : ButtonsState) (tr : List (Nat × ButtonState))
    (h : buttons_triggerPoll st = some (st1, tr)) :
    (∀ i, i < st.numButtons →
      (st1.buttons i).state = ButtonState.Cleared ∧
      (st1.buttons i).accelerationTrigger = false ∧
      st1.buttons i = drained (st.buttons i)) ∧
    (∀ i, i < st.numButtons →
      tr.filter (fun p => p.1 == i)
        = (pollTrace (st.buttons i)).map fun s => (i, s)) ∧
    List.Pairwise (fun p q : Nat × ButtonState => p.1 ≤ q.1) tr := by
  unfold buttons_triggerPoll at h
  cases hrec : triggerPollAux st.numButtons st.buttons with
  | none => rw [hrec] at h; cases h
  | some p =>
    obtain ⟨bs1, tr1⟩ := p
    rw [hrec] at h
    simp only [Option.some.injEq, Prod.mk.injEq] at h
    obtain ⟨hst, htr⟩ := h
    obtain ⟨ha, hb, hc⟩ := triggerPollAux_spec st.numButtons st.buttons bs1 tr1 hrec
    subst htr
    refine ⟨?_, ?_, ?_⟩
    · intro i hi
      have hbi : st1.buttons i = drained (st.buttons i) := by
        rw [← hst]
        exact hb i hi
      exact ⟨by rw [hbi]; rfl, by rw [hbi]; rfl, hbi⟩
    · intro i hi
      rw [hc]
      exact filter_pollFlatten (fun j => pollTrace (st.buttons j)) st.numButtons i hi
    · rw [hc]
      exact pairwise_pollFlatten (fun j => pollTrace (st.buttons j)) st.numButtons

theorem C6_poll_drains_witness :
    buttons_triggerPoll pollDemo = some (pollDemoAfter, pollDemoTrace) ∧
    (pollDemoAfter.buttons 0).state = ButtonState.Cleared ∧
    (pollDemoAfter.buttons 1).accelerationTrigger = false :=
  ⟨rfl,
   ((C6_poll_drains pollDemo pollDemoAfter pollDemoTrace rfl).1 0 (by decide)).1,
   ((C6_poll_drains pollDemo pollDemoAfter pollDemoTrace rfl).1 1 (by decide)).2.1⟩

theorem triggerPollAux_fault (n : Nat) (bs : Nat → Button) (i : Nat)
    (hi : i < n) (hn : (bs i).handler = none)
    (hp : (bs i).state ≠ ButtonState.Cleared ∨ (bs i).accelerationTrigger = true) :
    triggerPollAux n bs = none := by
  induction n with
  | zero => omega
  | succ n ih =>
    unfold triggerPollAux
    rcases Nat.lt_succ_iff_lt_or_eq.mp hi with h | h
    · rw [ih h]
    · subst h
      cases hrec : triggerPollAux i bs with
      | none => rfl
      | some p =>
        obtain ⟨bs2, tr2⟩ := p
        have hbn : bs2 i = bs i := (triggerPollAux_spec i bs bs2 tr2 hrec).1 i le_rfl
        dsimp only
        rw [hbn, pollOne_eq_none (bs i) hn hp]

/-- C8 counterexample: the claim fails on the code — buttons_triggerPoll has no null
check on the handler, so polling an entity whose handler pointer is null with a
pending (non-Cleared) state faults (the embedding returns none, modelling the call
through the null function pointer) instead of completing as a silent no-op. -/
theorem C8_counterexample :
    0 < nullHandlerState.numButtons ∧
    (nullHandlerState.buttons 0).handler = none ∧
    (nullHandlerState.buttons 0).state ≠ ButtonState.Cleared ∧
    buttons_triggerPoll nullHandlerState = none :=
  ⟨by decide, rfl, by decide, rfl⟩

/-- C8 amended: buttons_triggerPoll performs no null-handler check; polling an entity
below numButtons whose handler pointer is null while it has a pending state (state
not Cleared) or a set accelerationTrigger calls through the null pointer — a fault —
rather than completing without fault. -/
theorem C8_null_handler_faults (st : ButtonsState) (i : Nat)
    (hi : i < st.numButtons) (hn : (st.buttons i).handler = none)
    (hp : (st.buttons i).state ≠ ButtonState.Cleared ∨
          (st.buttons i).accelerationTrigger = true) :
    buttons_triggerPoll st = none := by
  unfold buttons_triggerPoll
  rw [triggerPollAux_fault st.numButtons st.buttons i hi hn hp]

theorem C8_null_handler_faults_witness :
    0 < nullHandlerState.numButtons ∧
    (nullHandlerState.buttons 0).handler = none ∧
    ((nullHandlerState.buttons 0).state ≠ ButtonState.Cleared ∨
      (nullHandlerState.buttons 0).accelerationTrigger = true) ∧
    buttons_triggerPoll nullHandlerState = none :=
  ⟨by decide, rfl, by decide,
   C8_null_handler_faults nullHandlerState 0 (by decide) rfl (by decide)⟩

/-- C9: configuration errors are explicit return values that leave state unchanged —
buttons_create returns ButtonParamError exactly on a NULL handler (modifying nothing,
the full result being the original state) and otherwise initializes the entity and
returns ButtonOk; buttons_setState and buttons_setLastState return ButtonParamError
exactly when index is at least numButtons, leave all state unchanged in that case,
and otherwise set the requested field, leave every other button unchanged, and
return ButtonOk. -/
theorem C9_config_errors :
    (∀ (st : ButtonsState) (pin : Nat) (mode : ButtonMode) (lm : ButtonLogic) (index : Nat),
      buttons_create st pin mode lm index none = (ButtonErrorState.ButtonParamError, st)) ∧
    (∀ (st : ButtonsState) (pin : Nat) (mode : ButtonMode) (lm : ButtonLogic) (index : Nat)
        (u : Unit),
      (buttons_create st pin mode lm index (some u)).1 = ButtonErrorState.ButtonOk ∧
      ((buttons_create st pin mode lm index (some u)).2.buttons index).state
          = ButtonState.Cleared ∧
      ((buttons_create st pin mode lm index (some u)).2.buttons index).lastState
          = ButtonState.Released ∧
      ((buttons_create st pin mode lm index (some u)).2.buttons index).lastTime = 0 ∧
      ((buttons_create st pin mode lm index (some u)).2.buttons index).handler = some () ∧
      ((buttons_create st pin mode lm index (some u)).2.buttons index).accelerationThreshold
          = BUTTON_ACCELERATION_THRESHOLD ∧
      ((buttons_create st pin mode lm index (some u)).2.buttons index).accelerationCounter
          = 0) ∧
    (∀ (st : ButtonsState) (index : Nat) (s : ButtonState),
      ((buttons_setState st index s).1 = ButtonErrorState.ButtonParamError ↔
        st.numButtons ≤ index) ∧
      (st.numButtons ≤ index → (buttons_setState st index s).2 = st) ∧
      (index < st.numButtons →
        (buttons_setState st index s).1 = ButtonErrorState.ButtonOk ∧
        ((buttons_setState st index s).2.buttons index).state = s ∧
        ∀ j, j ≠ index → (buttons_setState st index s).2.buttons j = st.buttons j)) ∧
    (∀ (st : ButtonsState) (index : Nat) (s : ButtonState),
      ((buttons_setLastState st index s).1 = ButtonErrorState.ButtonParamError ↔
        st.numButtons ≤ index) ∧
      (st.numButtons ≤ index → (buttons_setLastState st index s).2 = st) ∧
      (index < st.numButtons →
        (buttons_setLastState st index s).1 = ButtonErrorState.ButtonOk ∧
        ((buttons_setLastState st index s).2.buttons index).lastState = s ∧
        ∀ j, j ≠ index → (buttons_setLastState st index s).2.buttons j = st.buttons j)) := by
  refine ⟨fun st pin mode lm index => rfl, fun st pin mode lm index u => ?_, ?_, ?_⟩
  · unfold buttons_create
    simp [updateButtons_same]
  · intro st index s
    by_cases h : st.numButtons ≤ index
    · unfold buttons_setState
      rw [if_pos h]
      simp [h]
    · unfold buttons_setState
      rw [if_neg h]
      simp only [updateButtons_same]
      refine ⟨by simp [h], fun hc => absurd hc h,
        fun hc => ⟨by trivial, by trivial, fun j hj => ?_⟩⟩
      exact updateButtons_other _ _ _ _ hj
  · intro st index s
    by_cases h : st.numButtons ≤ index
    · unfold buttons_setLastState
      rw [if_pos h]
      simp [h]
    · unfold buttons_setLastState
      rw [if_neg h]
      simp only [updateButtons_same]
      refine ⟨by simp [h], fun hc => absurd hc h,
        fun hc => ⟨by trivial, by trivial, fun j hj => ?_⟩⟩
      exact updateButtons_other _ _ _ _ hj

theorem C9_config_errors_witness :
    gapState.numButtons ≤ 5 ∧
    buttons_create gapState 1 ButtonMode.Momentary ButtonLogic.ActiveLow 0 none
      = (ButtonErrorState.ButtonParamError, gapState) ∧
    (buttons_setState gapState 5 ButtonState.Pressed).2 = gapState ∧
    (buttons_setLastState gapState 5 ButtonState.Pressed).2 = gapState :=
  ⟨by decide,
   C9_config_errors.1 gapState 1 ButtonMode.Momentary ButtonLogic.ActiveLow 0,
   (C9_config_errors.2.2.1 gapState 5 ButtonState.Pressed).2.1 (by decide),
   (C9_config_errors.2.2.2 gapState 5 ButtonState.Pressed).2.1 (by decide)⟩

/-- C10: the getters perform no index validation — for every index, including ones at
or beyond numButtons and beyond NUM_ALL_SWITCHES = 2, buttons_getState returns
buttons[index].state and buttons_getPin returns buttons[index].pin by direct array
access with no error result, while the setters reject such out-of-range indices with
ButtonParamError. -/
theorem C10_getters_unchecked :
    NUM_ALL_SWITCHES = 2 ∧
    (∀ (st : ButtonsState) (index : Nat),
      buttons_getState st index = (st.buttons index).state) ∧
    (∀ (st : ButtonsState) (index : Nat),
      buttons_getPin st index = (st.buttons index).pin) ∧
    (∀ (st : ButtonsState) (index : Nat) (s : ButtonState), st.numButtons ≤ index →
      (buttons_setState st index s).1 = ButtonErrorState.ButtonParamError ∧
      (buttons_setLastState st index s).1 = ButtonErrorState.ButtonParamError) := by
  refine ⟨rfl, fun st index => rfl, fun st index => rfl, fun st index s h => ?_⟩
  constructor <;> simp [buttons_setState, buttons_setLastState, h]

theorem C10_getters_unchecked_witness :
    gapState.numButtons ≤ 5 ∧
    NUM_ALL_SWITCHES ≤ 5 ∧
    buttons_getState gapState 5 = (gapState.buttons 5).state ∧
    buttons_getPin gapState 5 = (gapState.buttons 5).pin ∧
    (buttons_setState gapState 5 ButtonState.Pressed).1
      = ButtonErrorState.ButtonParamError :=
  ⟨by decide, by decide,
   C10_getters_unchecked.2.1 gapState 5,
   C10_getters_unchecked.2.2.1 gapState 5,
   (C10_getters_unchecked.2.2.2 gapState 5 ButtonState.Pressed (by decide)).1⟩
